import Mathlib

/-!
Anti-Phishing Guardian — verification of the URL/content heuristic analysis engine.

A shallow Lean embedding of the analysis core of the extension:

* `src/utils/url-parser.js`   — `URLParser` (structural detectors, issue list, threat table)
* `src/utils/phishing-detector.js` — `PhishingDetector` (aggregator `analyzeLink`,
  context scoring, final threat level, cache re-verification)
* `src/ml/pattern-detector.js` — `PatternDetector` (feature extraction, weighted score)
* `src/utils/ssl-validator.js` — `SSLValidator.validateURL`
* `src/utils/constants.js`    — reference data (keyword lists, domain lists, regex patterns)

JavaScript strings are Lean `String`s; the platform `URL` constructor (host
lowercasing, authority splitting) is modelled by `parseURL`; machine numbers are
`Nat`/`Int`/`Rat` (the only floating-point value in scope, the Shannon entropy of the
host, enters the code solely through the comparisons `> 4.5` and `> 5`, which are
modelled exactly over the rationals — see `EntropyVal`).  Fallible code returns
`Except String _`; the external stores (chrome storage, notification sink, reputation
database) are injected as `Except`-valued functions in a `Stores` record, mirroring
the `await`ed collaborator calls in `analyzeLink`.
-/

/-- JS `severity` field values of an Issue: `low | medium | high`. -/
inductive Severity where
  | low
  | medium
  | high
  deriving Repr, DecidableEq

/-- JS `THREAT_LEVELS` from `constants.js`: `safe | suspicious | dangerous | unknown`. -/
inductive ThreatLevel where
  | safe
  | suspicious
  | dangerous
  | unknown
  deriving Repr, DecidableEq

/-- An Issue object `{type, severity, message, ...}` as produced by the detectors.
`mlScore` carries the extra field set on `ml_pattern` / `ml_high_risk` issues,
`recommendation` and `errInfo` the extra fields set on SSL issues. -/
structure Issue where
  type : String
  severity : Severity
  message : String
  mlScore : Option Nat := none
  recommendation : Option String := none
  errInfo : Option String := none
  deriving Repr, DecidableEq

/-! ## String primitives (JS `includes`, `endsWith`, `startsWith`, `split`, `toLowerCase`) -/

/-- Does `needle` occur at the head of `hay`? (helper for substring search). -/
def prefAt : List Char → List Char → Bool
  | [], _ => true
  | _ :: _, [] => false
  | c :: cs, d :: ds => c = d && prefAt cs ds

/-- Does `hay` contain `needle` as a contiguous sublist?  JS `hay.includes(needle)`. -/
def containsL (hay needle : List Char) : Bool :=
  prefAt needle hay ||
    match hay with
    | [] => false
    | _ :: t => containsL t needle

/-- JS `hay.includes(needle)` on strings. -/
def strIncludes (hay needle : String) : Bool :=
  containsL hay.toList needle.toList

/-- JS `hay.endsWith(suffix)`. -/
def strEndsWith (hay suffix : String) : Bool :=
  prefAt suffix.toList.reverse hay.toList.reverse

/-- JS `hay.startsWith(pre)`. -/
def strStartsWith (hay pre : String) : Bool :=
  prefAt pre.toList hay.toList

/-- JS `s.split(sep)` for a one-character separator (empty pieces are kept,
splitting the empty string yields a single empty piece). -/
def splitCh (c : Char) : List Char → List (List Char)
  | [] => [[]]
  | x :: xs =>
    let r := splitCh c xs
    if x = c then [] :: r
    else
      match r with
      | [] => [[x]]
      | h :: t => (x :: h) :: t

/-- JS `hostname.split('.')` as strings. -/
def splitDots (s : String) : List String :=
  (splitCh '.' s.toList).map List.asString

/-- JS `s.toLowerCase()` (ASCII case mapping; all reference data is ASCII). -/
def strLower (s : String) : String :=
  ⟨s.toList.map Char.toLower⟩

/-! ## Reference data from `src/utils/constants.js` -/

/-- JS `PHISHING_KEYWORDS` from `constants.js` (weight 1 each in `analyzeContext`). -/
def PHISHING_KEYWORDS : List String :=
  ["verify", "account", "suspended", "confirm", "update", "validate",
   "reactivate", "locked", "blocked", "restricted", "frozen",
   "urgent", "immediately", "act now", "limited time", "expire", "expires",
   "deadline", "final notice", "last chance", "hurry", "act fast",
   "password", "security", "alert", "warning", "unusual activity",
   "suspicious", "unauthorized", "breach", "compromised", "hacked",
   "winner", "prize", "reward", "congratulations", "won", "lottery",
   "million", "inheritance", "fund", "transfer", "claim",
   "click here", "click below", "verify now", "confirm now", "update now",
   "download", "open attachment", "see details", "view message",
   "refund", "tax", "irs", "payment", "invoice", "overdue", "debt",
   "owed", "billing", "charge", "transaction", "purchase",
   "free", "guarantee", "risk-free", "no cost", "100%", "amazing offer",
   "special promotion", "exclusive", "selected", "qualified",
   "login", "sign in", "credentials", "username", "ssn", "social security",
   "re-enter", "provide", "submit", "fill out",
   "customer service", "support team", "helpdesk", "admin", "administrator",
   "official", "authorized", "representative"]

/-- JS `SPAM_INDICATORS` from `constants.js` (weight 3 each in `analyzeContext`). -/
def SPAM_INDICATORS : List String :=
  ["viagra", "cialis", "pharmacy", "pills", "medication", "weight loss",
   "work from home", "make money", "earn $", "get paid", "income opportunity",
   "mlm", "multi-level", "investment opportunity", "crypto gains",
   "bitcoin", "forex", "trading bot", "guaranteed profit",
   "enlarge", "enhancement", "replica", "luxury goods",
   "nigerian prince", "beneficiary", "next of kin", "offshore",
   "unsubscribe", "opt-out", "remove me", "mailing list"]

/-- JS `SUSPICIOUS_TLDS` from `constants.js`. -/
def SUSPICIOUS_TLDS : List String :=
  [".tk", ".ml", ".ga", ".cf", ".gq", ".xyz", ".top",
   ".club", ".work", ".click", ".link", ".bid", ".country"]

/-- JS `LEGITIMATE_DOMAINS` from `constants.js`. -/
def LEGITIMATE_DOMAINS : List String :=
  ["google.com", "gmail.com", "outlook.com", "microsoft.com",
   "apple.com", "amazon.com", "paypal.com", "facebook.com",
   "twitter.com", "linkedin.com", "github.com", "dropbox.com",
   "bankofamerica.com", "chase.com", "wellsfargo.com", "citibank.com",
   "usbank.com", "pnc.com", "capitalone.com", "tdbank.com",
   "barclays.com", "hsbc.com", "santander.com", "deutsche-bank.com",
   "stripe.com", "square.com", "venmo.com", "cashapp.com",
   "coinbase.com", "binance.com", "kraken.com", "gemini.com",
   "ebay.com", "walmart.com", "target.com", "bestbuy.com",
   "netflix.com", "hulu.com", "disneyplus.com", "spotify.com",
   "instagram.com", "tiktok.com", "snapchat.com", "reddit.com",
   "yahoo.com", "protonmail.com", "zoho.com", "aol.com"]

/-- JS `TYPOSQUATTING_TARGETS` from `constants.js` (note: the source list literally
contains the entry `"creditsuis se"`, with an embedded space). -/
def TYPOSQUATTING_TARGETS : List String :=
  ["google", "facebook", "amazon", "microsoft", "apple",
   "netflix", "instagram", "twitter", "linkedin", "youtube",
   "tiktok", "snapchat", "reddit", "discord", "telegram",
   "whatsapp", "zoom", "slack", "github", "gitlab",
   "paypal", "stripe", "square", "venmo", "cashapp",
   "coinbase", "binance", "kraken", "gemini", "robinhood",
   "bankofamerica", "chase", "wellsfargo", "citibank", "usbank",
   "pnc", "capitalone", "tdbank", "bofa", "citi",
   "barclays", "hsbc", "santander", "deutschebank", "bnpparibas",
   "creditsuis se", "ing", "natwest", "lloydsbank", "rbs",
   "ebay", "walmart", "target", "bestbuy", "costco",
   "homedepot", "lowes", "alibaba", "aliexpress", "etsy",
   "spotify", "hulu", "disneyplus", "hbomax", "primevideo",
   "twitch", "vimeo", "soundcloud", "pandora",
   "gmail", "outlook", "yahoo", "protonmail", "icloud",
   "dropbox", "onedrive", "googledrive", "icloud", "box",
   "steam", "epicgames", "playstation", "xbox", "nintendo",
   "roblox", "minecraft", "fortnite", "ea", "ubisoft",
   "irs", "usps", "fedex", "ups", "dhl",
   "coursera", "udemy", "edx", "khanacademy", "duolingo",
   "adobe", "salesforce", "shopify", "wordpress", "squarespace"]

/-- JS `URL_SHORTENERS` from `constants.js`. -/
def URL_SHORTENERS : List String :=
  ["bit.ly", "tinyurl.com", "goo.gl", "t.co", "ow.ly",
   "is.gd", "buff.ly", "adf.ly", "bit.do", "short.link"]

/-- JS `PATTERNS.IP_ADDRESS.test(hostname)`: the anchored regex
`^(?:\d{1,3}\.){3}\d{1,3}$` — exactly four dot-separated runs of 1 to 3 ASCII
digits. -/
def ipAddressTest (hostname : String) : Bool :=
  let parts := splitCh '.' hostname.toList
  parts.length = 4 &&
    parts.all fun p => 1 ≤ p.length && p.length ≤ 3 && p.all Char.isDigit

/-- An ASCII hex digit (the regex class `[0-9A-Fa-f]`). -/
def isHexDigit (c : Char) : Bool :=
  c.isDigit || ('a' ≤ c && c ≤ 'f') || ('A' ≤ c && c ≤ 'F')

/-- Scanner for `encodedCharsTest`. -/
def encodedCharsGo : List Char → Bool
  | '%' :: a :: b :: rest => (isHexDigit a && isHexDigit b) || encodedCharsGo (a :: b :: rest)
  | _ :: rest => encodedCharsGo rest
  | [] => false

/-- JS `PATTERNS.ENCODED_CHARS.test(url)`: the unanchored regex `%[0-9A-Fa-f]{2}` —
some `%` immediately followed by two hex digits. -/
def encodedCharsTest (s : String) : Bool :=
  encodedCharsGo s.toList

/-! ## The platform URL constructor

`URLParser.parseURL` and `analyzeLink` call the WHATWG `new URL(raw)` constructor,
which is not part of this repository.  `parseURL` models it for the absolute URLs
this engine handles: a scheme, an optional `//userinfo@host:port` authority for
special schemes, path, query and fragment; the host is lowercased; default ports
are elided; parse failure is `none` (JS: a thrown `TypeError`). -/

/-- A parsed URL object: the fields of the JS `URL` instance read by the engine. -/
structure URLRec where
  /-- JS `url.protocol`, scheme plus trailing colon, e.g. `"https:"`. -/
  protocol : String
  /-- JS `url.username` (empty when absent). -/
  username : String
  /-- JS `url.hostname`, lowercased. -/
  hostname : String
  /-- JS `url.port` as a string, `""` when absent or equal to the scheme default. -/
  port : String
  /-- JS `url.pathname` (starts with `/` for special schemes). -/
  pathname : String
  /-- JS `url.search` without the leading `?` (so `""` when there is no query). -/
  search : String
  deriving Repr, DecidableEq

/-- Splits `s` at the first occurrence of `c`; `none` when `c` does not occur. -/
def splitFirst (c : Char) (s : List Char) : Option (List Char × List Char) :=
  match s with
  | [] => none
  | x :: xs =>
    if x = c then some ([], xs)
    else (splitFirst c xs).map fun (a, b) => (x :: a, b)

/-- A valid URL scheme: an ASCII letter followed by letters, digits, `+`, `-`, `.`. -/
def validScheme (s : List Char) : Bool :=
  match s with
  | [] => false
  | c :: cs =>
    c.isAlpha && cs.all fun d => d.isAlpha || d.isDigit || d = '+' || d = '-' || d = '.'

/-- Schemes whose URLs carry a `//host` authority and a default port. -/
def specialSchemes : List String := ["http", "https", "ftp", "ws", "wss"]

/-- Default port elision: `http:80`, `https:443`, `ftp:21` parse with `port = ""`. -/
def defaultPort (scheme : String) : String :=
  if scheme = "http" ∨ scheme = "ws" then "80"
  else if scheme = "https" ∨ scheme = "wss" then "443"
  else if scheme = "ftp" then "21"
  else ""

/-- Characters that terminate the authority component. -/
def authEnd (c : Char) : Bool := c = '/' || c = '?' || c = '#'

/-- Split a list at the first character satisfying `p` (the matching character is
kept at the head of the second component). -/
def spanUntil (p : Char → Bool) : List Char → List Char × List Char
  | [] => ([], [])
  | x :: xs =>
    if p x then ([], x :: xs)
    else
      let (a, b) := spanUntil p xs
      (x :: a, b)

/-- Characters the URL standard forbids inside a (non-IPv6) host. -/
def forbiddenHostChar (c : Char) : Bool :=
  c = ' ' || c = '#' || c = '/' || c = '?' || c = '@' || c = '\\' ||
    c = '[' || c = ']' || c = '<' || c = '>' || c = '^' || c = '|'

/-- Assemble path, query and fragment for a special-scheme URL (helper of
`parseURL`). -/
def mkRest (scheme username host port : String) (pathEtc : List Char) :
    Option URLRec :=
  let (path, queryEtc) := spanUntil (fun c => c = '?' || c = '#') pathEtc
  let (query, _) :=
    match queryEtc with
    | '?' :: qs => spanUntil (· = '#') qs
    | _ => ([], [])
  let pathname := if path.isEmpty then "/" else path.asString
  some { protocol := scheme ++ ":", username := username,
         hostname := strLower host, port := port,
         pathname := pathname, search := query.asString }

/-- Model of `new URL(raw)` (see the section comment). -/
def parseURL (raw : String) : Option URLRec :=
  match splitFirst ':' raw.toList with
  | none => none
  | some (schemeRaw, rest) =>
    if ¬ validScheme schemeRaw then none
    else
      let scheme := strLower schemeRaw.asString
      if scheme ∈ specialSchemes then
        -- special scheme: skip the slashes, then authority, path, query, fragment
        let afterSlashes := rest.dropWhile (fun c => c = '/' || c = '\\')
        let (auth, pathEtc) := spanUntil authEnd afterSlashes
        let (userinfo, hostPort) :=
          match splitFirst '@' auth with
          | some (u, h) => (u, h)
          | none => ([], auth)
        let username := (spanUntil (· = ':') userinfo).1.asString
        let (hostRaw, portRaw) :=
          match splitFirst ':' hostPort with
          | some (h, p) => (h, some p)
          | none => (hostPort, none)
        if hostRaw.isEmpty ∨ hostRaw.any forbiddenHostChar then none
        else
          match portRaw with
          | some p =>
            if ¬ p.all Char.isDigit then none
            else
              let pstr := p.asString
              let port := if pstr = defaultPort scheme then "" else pstr
              mkRest scheme username hostRaw.asString port pathEtc
          | none => mkRest scheme username hostRaw.asString "" pathEtc
      else
        -- opaque-path scheme (javascript:, data:, mailto:, ...): no host
        let (path, queryEtc) := spanUntil (fun c => c = '?' || c = '#') rest
        let (query, _) :=
          match queryEtc with
          | '?' :: qs => spanUntil (· = '#') qs
          | _ => ([], [])
        some { protocol := scheme ++ ":", username := "", hostname := "",
               port := "", pathname := path.asString, search := query.asString }

/-- JS `url.searchParams` as an association list (split on `&`, then on the first `=`). -/
def searchParams (r : URLRec) : List (String × String) :=
  if r.search = "" then []
  else
    (splitCh '&' r.search.toList).map fun kv =>
      match splitFirst '=' kv with
      | some (k, v) => (k.asString, v.asString)
      | none => (kv.asString, "")

/-- JS `url.searchParams.get(key)` (first match, `none` when absent). -/
def searchParamsGet (r : URLRec) (key : String) : Option String :=
  ((searchParams r).find? fun kv => kv.1 = key).map Prod.snd

/-! ## `URLParser` (src/utils/url-parser.js)

The JS class stores `url`, `parsed`, `hostname`, `domain`, `protocol`, `username`.
Here each method takes the raw `url` and the parsed record `r : URLRec` (the methods
below are only ever invoked by `getIssues`/`getThreatLevel` after a successful parse;
the unparsed case is handled where the class handles it, in `URLParser.getIssues`
and `analyzeURLE`). -/

namespace URLParser

/-- JS `extractDomain`: last two DNS labels of the hostname (the whole hostname when it
has fewer than two labels). -/
def extractDomain (hostname : String) : String :=
  let parts := splitDots hostname
  if parts.length ≥ 2 then
    String.intercalate "." (parts.drop (parts.length - 2))
  else hostname

/-- JS `this.domain` for a parsed URL. -/
def domainOf (r : URLRec) : String := extractDomain r.hostname

/-- JS `isIPAddress()`. -/
def isIPAddress (r : URLRec) : Bool := ipAddressTest r.hostname

/-- JS `hasSuspiciousTLD()`. -/
def hasSuspiciousTLD (r : URLRec) : Bool :=
  SUSPICIOUS_TLDS.any fun tld => strEndsWith r.hostname tld

/-- JS `hasEncodedChars()` — tested against the whole raw URL. -/
def hasEncodedChars (url : String) : Bool := encodedCharsTest url

/-- JS `hasMultipleDots()` — regex `\.{2,}` on the hostname. -/
def hasMultipleDots (r : URLRec) : Bool := strIncludes r.hostname ".."

/-- JS `isURLShortener()`. -/
def isURLShortener (r : URLRec) : Bool :=
  URL_SHORTENERS.any fun shortener => domainOf r = shortener

/-- JS `isLegitimate()`: the registrable domain equals a configured legitimate domain,
or the hostname is a subdomain of one. -/
def isLegitimate (r : URLRec) : Bool :=
  LEGITIMATE_DOMAINS.any fun domain =>
    domainOf r = domain || strEndsWith r.hostname ("." ++ domain)

/-- The `homographs` table from `hasHomographAttack()`, embedded byte-for-byte from
the source file.  The source file as committed stores the non-ASCII confusables as
multi-character mojibake sequences; each lookalike below is the literal string the
JS `hostname.includes(lookalike)` call receives.  Note the table also lists the
plain ASCII characters `1`, `l`, `|`, `I`, `0` and `v` as lookalikes. -/
def homographs : List (Char × List String) :=
  [('a', ["ะฐ", "ษ\u0091", "ฮฑ", "แบก", "ฤ\u0083", "ฤ\u0085", "ร ", "รก", "รข", "รฃ", "รค", "รฅ", "ฤ\u0081", "ศง", "แบฅ", "แบง", "แบฉ", "แบซ", "แบญ", "แบฏ", "แบฑ", "แบณ", "แบต", "แบท"]),
   ('b', ["ะฌ", "ั\u008c", "แธ\u0083", "แธ\u0085", "แธ\u0087", "ฦ\u0085"]),
   ('c', ["ั\u0081", "ฯฒ", "ฤ\u008b", "รง", "ฤ\u0087", "ฤ\u0089", "ฤ\u008d", "แธ\u0089"]),
   ('d', ["ิ\u0081", "แธ\u008b", "แธ\u008d", "แธ\u008f", "แธ\u0091", "แธ\u0093", "ฤ\u008f", "ฤ\u0091"]),
   ('e', ["ะต", "ฮต", "ฤ\u0097", "ฤ\u0099", "รจ", "รฉ", "รช", "รซ", "ฤ\u0093", "ฤ\u009b", "ศฉ", "แธ\u0095", "แธ\u0097", "แธ\u0099", "แธ\u009b", "แธ\u009d", "แบฟ", "แป\u0081", "แป\u0083", "แป\u0085", "แป\u0087"]),
   ('f', ["แธ\u009f", "ฦ\u0092"]),
   ('g', ["ฤก", "ฤฃ", "ฤ\u009d", "วง", "วต", "แธก"]),
   ('h', ["าป", "แธฃ", "แธฅ", "แธง", "แธฉ", "แธซ", "ฤฅ", "ฤง"]),
   ('i', ["ั\u0096", "ฮน", "1", "l", "|", "ฤฑ", "รฏ", "รฌ", "รญ", "รฎ", "ฤฉ", "ฤซ", "ฤญ", "ฤฏ", "ว\u0090", "ศ\u0089", "ศ\u008b", "แธญ", "แธฏ", "แป\u0089", "แป\u008b"]),
   ('j', ["ั\u0098", "ฤต", "วฐ"]),
   ('k', ["ะบ", "ฤท", "แธฑ", "แธณ", "แธต"]),
   ('l', ["ำ\u008f", "1", "I", "|", "ฤบ", "ฤผ", "ฤพ", "แธท", "แธน", "แธป", "แธฝ", "ล\u0082"]),
   ('m', ["ะผ", "แน\u0081", "แน\u0083"]),
   ('n', ["ีธ", "แน\u0085", "แน\u0087", "แน\u0089", "แน\u008b", "ล\u0084", "ล\u0086", "ล\u0088", "รฑ", "วน", "ศต"]),
   ('o', ["ะพ", "ฮฟ", "0", "ศฏ", "แป\u008d", "แป\u008f", "ล\u008d", "ล\u008f", "ล\u0091", "รฒ", "รณ", "รด", "รต", "รถ", "ฦก", "ว\u0092", "วซ", "วญ", "ศ\u008d", "ศ\u008f", "ศซ", "ศญ", "ศฏ", "ศฑ", "แน\u008d", "แน\u008f", "แน\u0091", "แน\u0093", "แป\u0091", "แป\u0093", "แป\u0095", "แป\u0097", "แป\u0099", "แป\u009b", "แป\u009d", "แป\u009f", "แปก", "แปฃ"]),
   ('p', ["ั\u0080", "ฯ\u0081", "แน\u0095", "แน\u0097"]),
   ('q', ["ิ\u009b", "ีฆ"]),
   ('r', ["ะณ", "แน\u0099", "แน\u009b", "แน\u009d", "แน\u009f", "ล\u0095", "ล\u0097", "ล\u0099", "ศ\u0091", "ศ\u0093"]),
   ('s', ["ั\u0095", "ล\u009b", "แนก", "แนฃ", "แนฅ", "แนง", "แนฉ", "ล\u009d", "ลก", "ศ\u0099"]),
   ('t', ["ั\u0082", "แนซ", "แนญ", "แนฏ", "แนฑ", "ลฃ", "ลฅ", "ศ\u009b"]),
   ('u', ["ฯ\u0085", "ีฝ", "รผ", "รน", "รบ", "รป", "ลฉ", "ลซ", "ลญ", "ลฏ", "ลฑ", "ลณ", "ฦฐ", "ว\u0094", "ว\u0096", "ว\u0098", "ว\u009a", "ว\u009c", "ศ\u0095", "ศ\u0097", "แปฅ", "แปง", "แปฉ", "แปซ", "แปญ", "แปฏ", "แปฑ"]),
   ('v', ["ฮฝ", "v", "แนฝ", "แนฟ"]),
   ('w', ["ัก", "แบ\u0081", "แบ\u0083", "แบ\u0085", "แบ\u0087", "แบ\u0089", "ลต"]),
   ('x', ["ั\u0085", "ฯ\u0087", "แบ\u008b", "แบ\u008d"]),
   ('y', ["ั\u0083", "ฮณ", "แปณ", "รฝ", "ลท", "รฟ", "ศณ", "แบ\u008f", "แปต", "แปท", "แปน"]),
   ('z', ["ลบ", "ลผ", "ลพ", "แบ\u0091", "แบ\u0093", "แบ\u0095"])]

/-- JS `detectMixedScripts(text)`: the set of scripts among Latin, Cyrillic, Greek and
Armenian hit by the characters of `text`, returned as the four membership flags
(in that order).  JS iterates code points and classifies `charCodeAt(0)`; for the
characters in the ranges below the two agree. -/
def detectMixedScripts (text : String) : Bool × Bool × Bool × Bool :=
  text.toList.foldl
    (fun (acc : Bool × Bool × Bool × Bool) c =>
      let code := c.toNat
      let (la, cy, gr, ar) := acc
      if (0x41 ≤ code ∧ code ≤ 0x5A) ∨ (0x61 ≤ code ∧ code ≤ 0x7A) then
        (true, cy, gr, ar)
      else if 0x400 ≤ code ∧ code ≤ 0x4FF then (la, true, gr, ar)
      else if 0x370 ≤ code ∧ code ≤ 0x3FF then (la, cy, true, ar)
      else if 0x530 ≤ code ∧ code ≤ 0x58F then (la, cy, gr, true)
      else acc)
    (false, false, false, false)

/-- Number of distinct scripts detected (`scripts.size`). -/
def mixedScriptCount (text : String) : Nat :=
  let (la, cy, gr, ar) := detectMixedScripts text
  (if la then 1 else 0) + (if cy then 1 else 0) + (if gr then 1 else 0) +
    (if ar then 1 else 0)

/-- JS `hasHomographAttack()`: some table lookalike occurs in the hostname, or the
hostname mixes at least two scripts. -/
def hasHomographAttack (r : URLRec) : Bool :=
  (homographs.any fun entry => entry.2.any fun lookalike =>
    strIncludes r.hostname lookalike) ||
  mixedScriptCount r.hostname > 1

/-- JS `levenshteinDistance(str1, str2)`: one DP row step.  `prev` is the previous
matrix row; `left` is the value just written in the current row.  For
`prev = p :: q :: _`, `p` is the diagonal neighbour and `q` the one above. -/
def levGo (c : Char) : List Char → List Nat → Nat → List Nat
  | [], _, _ => []
  | _ :: _, [], _ => []
  | _ :: _, [_], _ => []
  | x :: xs, p :: q :: rest, left =>
    let cur := if x = c then p else 1 + Nat.min p (Nat.min left q)
    cur :: levGo c xs (q :: rest) cur

/-- JS `levenshteinDistance(str1, str2)`: fold the DP rows over `str2`. -/
def levRows (s1 : List Char) : List Char → List Nat → List Nat
  | [], prev => prev
  | c :: cs, prev =>
    let h := prev.headD 0 + 1
    levRows s1 cs (h :: levGo c s1 prev h)

/-- JS `levenshteinDistance(str1, str2)` — the matrix entry
`matrix[str2.length][str1.length]` of the standard edit-distance DP built in the
source. -/
def levenshteinDistance (str1 str2 : String) : Nat :=
  let s1 := str1.toList
  (levRows s1 str2.toList (List.range (s1.length + 1))).getLastD 0

/-- The `substitutions` table from `hasCharacterSubstitution()`. -/
def substitutions : List (Char × List Char) :=
  [('a', ['4', '@']),
   ('e', ['3']),
   ('i', ['1', 'l', '!']),
   ('o', ['0']),
   ('s', ['5', '$']),
   ('l', ['1', 'i']),
   ('t', ['7'])]

/-- JS `targetDomain.replace(new RegExp(char, 'g'), sub)` for one-character `sub`. -/
def replaceAllCh (s : String) (ch sub : Char) : String :=
  (s.toList.map fun c => if c = ch then sub else c).asString

/-- JS `hasCharacterSubstitution(targetDomain)`: some leet-speak substitution of the
target occurs in the hostname.  (When the target does not contain the letter being
substituted, the "substituted" string is the target itself.) -/
def hasCharacterSubstitution (r : URLRec) (targetDomain : String) : Bool :=
  substitutions.any fun entry =>
    entry.2.any fun sub =>
      strIncludes r.hostname (replaceAllCh targetDomain entry.1 sub)

/-- The `commonTLDs` list from `isTyposquatting()`. -/
def commonTLDs : List String := [".com", ".net", ".org", ".co", ".io"]

/-- JS `isTyposquatting()`: for each configured target contained in the hostname,
either some `target+TLD` variant is at Levenshtein distance 1–2 from the registrable
domain (skipping exact matches), or a leet-speak substitution of the target occurs
in the hostname. -/
def isTyposquatting (r : URLRec) : Bool :=
  TYPOSQUATTING_TARGETS.any fun targetDomain =>
    strIncludes r.hostname targetDomain &&
      (commonTLDs.any (fun tld =>
        let expected := targetDomain ++ tld
        if domainOf r ≠ expected ∧ r.hostname ≠ expected then
          let distance := levenshteinDistance (domainOf r) expected
          decide (distance > 0 ∧ distance ≤ 2)
        else false) ||
      hasCharacterSubstitution r targetDomain)

/-- JS `hasLongDomain()`. -/
def hasLongDomain (r : URLRec) : Bool := r.hostname.length > 50

/-- JS `hasNonStandardPort()`. -/
def hasNonStandardPort (r : URLRec) : Bool :=
  if r.port = "" then false
  else ¬ (["80", "443", "8080", "8443"].contains r.port)

/-- JS `isInsecure()`. -/
def isInsecure (r : URLRec) : Bool := r.protocol = "http:"

/-- JS `hasDangerousScheme()`. -/
def hasDangerousScheme (r : URLRec) : Bool :=
  ["javascript:", "data:", "blob:", "file:", "vbscript:"].any
    fun scheme => r.protocol = scheme

/-- JS `hasUsernameInURL()`. -/
def hasUsernameInURL (r : URLRec) : Bool := r.username ≠ ""

/-- The `popularDomains` token list from `hasSubdomainImpersonation()`. -/
def impersonationBrands : List String :=
  ["paypal", "amazon", "google", "microsoft", "apple",
   "facebook", "netflix", "instagram", "twitter", "linkedin",
   "bankofamerica", "chase", "wellsfargo", "citibank"]

/-- JS `hasSubdomainImpersonation()`: a popular brand token occurs in the hostname but
the registrable domain does not start with it. -/
def hasSubdomainImpersonation (r : URLRec) : Bool :=
  impersonationBrands.any fun domain =>
    strIncludes r.hostname domain && ¬ strStartsWith (domainOf r) domain

/-- The `popularDomains` full-domain list from `hasPathSpoofing()`. -/
def pathSpoofDomains : List String :=
  ["paypal.com", "amazon.com", "google.com", "microsoft.com",
   "apple.com", "facebook.com", "netflix.com", "bankofamerica.com",
   "chase.com", "wellsfargo.com"]

/-- JS `hasPathSpoofing()`: a trusted domain string occurs in the URL path. -/
def hasPathSpoofing (r : URLRec) : Bool :=
  pathSpoofDomains.any fun domain => strIncludes r.pathname domain

/-- JS `hasDoubleEncoding()` — regex `%25` on the raw URL. -/
def hasDoubleEncoding (url : String) : Bool := strIncludes url "%25"

/-- JS `hasPunycode()` — regex `xn--` on the hostname. -/
def hasPunycode (r : URLRec) : Bool := strIncludes r.hostname "xn--"

/-- Convenience constructor for a detector Issue. -/
def mkIssue (type : String) (severity : Severity) (message : String) : Issue :=
  { type := type, severity := severity, message := message }

/-- JS `getIssues()`: the ordered issue list.  An unparsed URL yields the single
`invalid_url` issue; otherwise each detector appends its issue in source order. -/
def getIssues (url : String) : Option URLRec → List Issue
  | none => [mkIssue "invalid_url" .high "Invalid URL format"]
  | some r =>
    (if hasDangerousScheme r then
      [mkIssue "dangerous_scheme" .high
        "URL uses dangerous protocol (javascript/data/blob/file)"] else []) ++
    (if hasUsernameInURL r then
      [mkIssue "username_in_url" .high
        "URL contains username (common phishing technique)"] else []) ++
    (if hasSubdomainImpersonation r then
      [mkIssue "subdomain_impersonation" .high
        "Popular brand appears as subdomain (spoofing attempt)"] else []) ++
    (if hasPathSpoofing r then
      [mkIssue "path_spoofing" .high
        "Trusted domain name appears in URL path (deception technique)"] else []) ++
    (if hasDoubleEncoding url then
      [mkIssue "double_encoding" .high
        "URL contains double-encoded characters (obfuscation attempt)"] else []) ++
    (if hasPunycode r then
      [mkIssue "punycode" .medium
        "URL uses internationalized domain name (possible homograph attack)"] else []) ++
    (if isIPAddress r then
      [mkIssue "ip_address" .high
        "URL uses IP address instead of domain name"] else []) ++
    (if hasSuspiciousTLD r then
      [mkIssue "suspicious_tld" .medium
        "URL uses a suspicious top-level domain"] else []) ++
    (if hasEncodedChars url then
      [mkIssue "encoded_chars" .medium "URL contains encoded characters"] else []) ++
    (if hasMultipleDots r then
      [mkIssue "multiple_dots" .low "URL has unusual dot patterns"] else []) ++
    (if isURLShortener r then
      [mkIssue "url_shortener" .low "URL is shortened (destination unknown)"] else []) ++
    (if hasHomographAttack r then
      [mkIssue "homograph" .high "URL contains lookalike characters"] else []) ++
    (if isTyposquatting r then
      [mkIssue "typosquatting" .high "URL appears to mimic a popular domain"] else []) ++
    (if hasLongDomain r then
      [mkIssue "long_domain" .low "URL has an unusually long domain"] else []) ++
    (if hasNonStandardPort r then
      [mkIssue "non_standard_port" .medium "URL uses non-standard port"] else []) ++
    (if isInsecure r then
      [mkIssue "insecure" .medium "URL uses insecure HTTP protocol"] else [])

/-- JS `getThreatLevel()` for a parsed URL: count high/medium severities over the
issue list and apply the nested thresholds of the source.  (For an unparsed URL the
JS method throws inside `isLegitimate` — `this.hostname` is `null` — which is why
`analyzeURLE` below is `Except`-valued.) -/
def getThreatLevel (url : String) (r : URLRec) : ThreatLevel :=
  let issues := getIssues url (some r)
  if isLegitimate r then .safe
  else
    let highSeverity := (issues.filter fun i => i.severity = .high).length
    let mediumSeverity := (issues.filter fun i => i.severity = .medium).length
    if highSeverity ≥ 2 ∨ (highSeverity ≥ 1 ∧ mediumSeverity ≥ 1) then .dangerous
    else if highSeverity ≥ 1 ∨ mediumSeverity ≥ 2 then .suspicious
    else if issues.length > 0 then .suspicious
    else .unknown

end URLParser

/-! ## `AnalysisResult` — the object returned by `analyzeURL` / `analyzeLink`.

JS objects acquire fields as the analysis proceeds; every field that is only
sometimes present is an `Option` (a `none` models an absent — `undefined` — field). -/

/-- The analysis object: fields of the JS result, optional where conditionally set. -/
structure AnalysisResult where
  url : String
  domain : Option String := none
  hostname : Option String := none
  threatLevel : ThreatLevel
  issues : List Issue
  isLegitimate : Option Bool := none
  isWhitelisted : Option Bool := none
  isBlacklisted : Option Bool := none
  isPhishTankMatch : Option Bool := none
  phishTankVerified : Option Bool := none
  verified : Option Bool := none
  timestamp : Option Int := none
  mlScore : Option Nat := none
  mlConfidence : Option ℚ := none
  mlClassification : Option String := none
  contextScore : Option Nat := none
  errMsg : Option String := none
  deriving Repr, DecidableEq

/-- JS `analyzeURL(url)` from url-parser.js, `Except`-valued: on parse failure the JS
function itself throws (`getThreatLevel` → `isLegitimate` dereferences the `null`
hostname), modelled as `.error`. -/
def analyzeURLE (url : String) : Except String AnalysisResult :=
  match parseURL url with
  | none => .error "Cannot read properties of null (reading endsWith)"
  | some r =>
    .ok { url := url,
          domain := some (URLParser.domainOf r),
          hostname := some r.hostname,
          threatLevel := URLParser.getThreatLevel url r,
          issues := URLParser.getIssues url (some r),
          isLegitimate := some (URLParser.isLegitimate r) }

/-! ## `PatternDetector` (src/ml/pattern-detector.js) -/

/-- The Shannon entropy of `calculateEntropy(str)`, represented exactly.  The JS
value is `-Σ (cᵢ/n)·log2(cᵢ/n) = log2(n^n / Π cᵢ^cᵢ) / n` where `cᵢ` are the
character frequencies and `n` the length; the code consumes it only through the
comparisons `> 4.5` and `> 5`, which `entGt` decides exactly over the integers:
`entropy > a/b  ↔  n^(b·n) > 2^(a·n) · (Π cᵢ^cᵢ)^b`.  (Float rounding in the JS
`Math.log2` sum is not modelled; the comparisons are taken over the reals.) -/
structure EntropyVal where
  /-- the string length `n` -/
  len : Nat
  /-- JS `Π cᵢ^cᵢ` over the character frequencies `cᵢ` -/
  prodCC : Nat
  deriving Repr, DecidableEq

/-- Exact decision of `entropy > num/den` (see `EntropyVal`). -/
def entGt (e : EntropyVal) (num den : Nat) : Bool :=
  e.len ^ (den * e.len) > 2 ^ (num * e.len) * e.prodCC ^ den

namespace PatternDetector

/-- JS `calculateEntropy(str)`: the character-frequency data determining the Shannon
entropy of `str` (see `EntropyVal`). -/
def calculateEntropy (str : String) : EntropyVal :=
  let l := str.toList
  let counts := l.dedup.map fun c => l.count c
  { len := l.length, prodCC := (counts.map fun k => k ^ k).prod }

/-- The `keywords` list of `countSuspiciousKeywords`. -/
def suspiciousKeywordList : List String :=
  ["login", "signin", "account", "verify", "secure", "update",
   "confirm", "banking", "paypal", "amazon", "microsoft", "apple",
   "password", "suspended", "locked", "urgent", "alert"]

/-- JS `countSuspiciousKeywords(url)`. -/
def countSuspiciousKeywords (url : String) : Nat :=
  (suspiciousKeywordList.filter fun keyword => strIncludes (strLower url) keyword).length

/-- Does the unanchored regex `\d{1,3}\.\d{1,3}\.\d{1,3}\.\d{1,3}` match at the head
of the list?  A match anywhere exists iff a 7-character window `d.d.d.d` exists
(take the last digit of the first three runs and the first digit of the fourth). -/
def hasQuadAt : List Char → Bool
  | a :: b :: c :: d :: e :: f :: g :: _ =>
    a.isDigit && b = '.' && c.isDigit && d = '.' && e.isDigit && f = '.' && g.isDigit
  | _ => false

/-- Unanchored test of `\d{1,3}\.\d{1,3}\.\d{1,3}\.\d{1,3}` (see `hasQuadAt`). -/
def dottedQuadSub : List Char → Bool
  | [] => false
  | l@(_ :: t) => hasQuadAt l || dottedQuadSub t

/-- The feature record of `extractFeatures` (field for field; `entropy` is the exact
representation of the JS float, `subdomainCount` is an `Int` because
`hostname.split('.').length - 2` is negative for a dot-free host). -/
structure FeatureVector where
  urlLength : Nat
  domainLength : Nat
  pathLength : Nat
  paramCount : Nat
  digitCount : Nat
  specialCharCount : Nat
  uppercaseCount : Nat
  subdomainCount : Int
  hasDash : Bool
  hasUnderscore : Bool
  hasIP : Bool
  hasPort : Bool
  hasAtSymbol : Bool
  isHTTPS : Bool
  tld : String
  isCommonTLD : Bool
  entropy : EntropyVal
  suspiciousKeywords : Nat
  deriving Repr, DecidableEq

/-- JS `extractFeatures(url)`: `none` exactly when `new URL(url)` throws. -/
def extractFeatures (url : String) : Option FeatureVector :=
  match parseURL url with
  | none => none
  | some urlObj =>
    some {
      urlLength := url.length,
      domainLength := urlObj.hostname.length,
      pathLength := urlObj.pathname.length,
      paramCount := (searchParams urlObj).length,
      digitCount := url.toList.countP fun c => c.isDigit,
      specialCharCount := url.toList.countP fun c => ¬ c.isAlphanum,
      uppercaseCount := url.toList.countP fun c => 'A' ≤ c ∧ c ≤ 'Z',
      subdomainCount := (splitDots urlObj.hostname).length - 2,
      hasDash := strIncludes urlObj.hostname "-",
      hasUnderscore := strIncludes urlObj.hostname "_",
      hasIP := dottedQuadSub urlObj.hostname.toList,
      hasPort := urlObj.port ≠ "",
      hasAtSymbol := strIncludes url "@",
      isHTTPS := urlObj.protocol = "https:",
      tld := (splitDots urlObj.hostname).getLastD "",
      isCommonTLD := ["com", "org", "net", "edu", "gov"].contains
        ((splitDots urlObj.hostname).getLastD ""),
      entropy := calculateEntropy urlObj.hostname,
      suspiciousKeywords := countSuspiciousKeywords url }

/-- JS `calculatePhishingScore(features)`: the fixed additive weight table, capped at
100; `0` for a `null` feature vector.  (`uppercaseCount > domainLength * 0.5` is the
exact integer comparison `2·uppercaseCount > domainLength`.) -/
def calculatePhishingScore : Option FeatureVector → Nat
  | none => 0
  | some features =>
    let score := 0
    let score := score + (if features.urlLength > 75 then 2 else 0)
    let score := score + (if features.urlLength > 100 then 3 else 0)
    let score := score + (if features.domainLength > 30 then 2 else 0)
    let score := score + (if features.digitCount > 8 then 2 else 0)
    let score := score + (if features.specialCharCount > 10 then 2 else 0)
    let score := score + (if 2 * features.uppercaseCount > features.domainLength then 1 else 0)
    let score := score + (if features.subdomainCount > 3 then 3 else 0)
    let score := score + (if features.hasDash then 1 else 0)
    let score := score + (if features.hasUnderscore then 2 else 0)
    let score := score + (if features.hasIP then 5 else 0)
    let score := score + (if features.hasPort then 2 else 0)
    let score := score + (if features.hasAtSymbol then 4 else 0)
    let score := score + (if ¬ features.isHTTPS then 3 else 0)
    let score := score + (if ¬ features.isCommonTLD then 2 else 0)
    let score := score +
      (if ["tk", "ml", "ga", "cf", "gq", "top", "xyz"].contains features.tld then 3 else 0)
    let score := score + (if entGt features.entropy 9 2 then 2 else 0)
    let score := score + (if entGt features.entropy 5 1 then 3 else 0)
    let score := score + features.suspiciousKeywords * 2
    Nat.min score 100

/-- The result of `classify(score)`. -/
structure MLClass where
  classification : String
  confidence : ℚ
  threatLevel : String
  deriving Repr, DecidableEq

/-- JS `classify(score)`. -/
def classify (score : Nat) : MLClass :=
  if score ≥ 15 then
    { classification := "phishing", confidence := min ((score : ℚ) / 20) 1,
      threatLevel := "DANGEROUS" }
  else if score ≥ 8 then
    { classification := "suspicious", confidence := (score : ℚ) / 15,
      threatLevel := "SUSPICIOUS" }
  else if score ≥ 4 then
    { classification := "potentially_suspicious", confidence := (score : ℚ) / 10,
      threatLevel := "SUSPICIOUS" }
  else
    { classification := "legitimate", confidence := 1 - (score : ℚ) / 10,
      threatLevel := "SAFE" }

/-- A `matchKnownPatterns` hit. -/
structure PatternMatch where
  description : String
  score : Nat
  deriving Repr, DecidableEq

/-- Returns the suffix of `hay` after the first occurrence of `needle`
(`none` when `needle` does not occur). -/
def afterFirst : List Char → List Char → Option (List Char)
  | hay, needle =>
    if prefAt needle hay then some (hay.drop needle.length)
    else
      match hay with
      | [] => none
      | _ :: t => afterFirst t needle

/-- Test of a regex of shape `(k₁|k₂|…).*\.(t₁|t₂|…)` on an already-lowercased
list: some keyword occurrence is followed, anywhere later, by a dot-TLD. -/
def regexKeyThenTld (l : List Char) (keys tlds : List String) : Bool :=
  keys.any fun k =>
    match afterFirst l k.toList with
    | some rest => tlds.any fun t => containsL rest ("." ++ t).toList
    | none => false

/-- Suffix after the first dotted-quad window (see `hasQuadAt`). -/
def afterQuad : List Char → Option (List Char)
  | [] => none
  | l@(_ :: t) => if hasQuadAt l then some (l.drop 7) else afterQuad t

/-- Test of `\d{1,3}\.\d{1,3}\.\d{1,3}\.\d{1,3}.*(k₁|k₂|…)` on a lowercased list. -/
def regexQuadThenKey (l : List Char) (keys : List String) : Bool :=
  match afterQuad l with
  | some rest => keys.any fun k => containsL rest k.toList
  | none => false

/-- A character of the class `[a-z0-9-]` (the input is already lowercased). -/
def isHostCls (c : Char) : Bool := c.isLower || c.isDigit || c = '-'

/-- Test of `[a-z0-9-]+\.[a-z0-9-]+\.[a-z0-9-]+\.(b₁|b₂|…)` on a lowercased list:
a match exists iff a window `x.y.z.` (single class characters suffice) is directly
followed by a brand. -/
def regexMultiSub (brands : List String) : List Char → Bool
  | [] => false
  | l@(_ :: t) =>
    (match l with
     | c1 :: d1 :: c2 :: d2 :: c3 :: d3 :: rest =>
       isHostCls c1 && d1 = '.' && isHostCls c2 && d2 = '.' && isHostCls c3 &&
         d3 = '.' && brands.any fun b => prefAt b.toList rest
     | _ => false) ||
    regexMultiSub brands t

/-- Three consecutive ASCII digits somewhere in the list (`\d{3,}` existence). -/
def hasThreeDigits : List Char → Bool
  | a :: b :: c :: rest =>
    (a.isDigit && b.isDigit && c.isDigit) || hasThreeDigits (b :: c :: rest)
  | _ => false

/-- Test of `(k₁|k₂|…).*\d{3,}` on a lowercased list. -/
def regexKeyThenDigits (l : List Char) (keys : List String) : Bool :=
  keys.any fun k =>
    match afterFirst l k.toList with
    | some rest => hasThreeDigits rest
    | none => false

/-- JS `matchKnownPatterns(url)`: the five fixed structural signatures, each tested
case-insensitively against the raw URL, matched scores summed. -/
def matchKnownPatterns (url : String) : Nat × List PatternMatch :=
  let l := (strLower url).toList
  let tests : List (Bool × Nat × String) :=
    [(regexKeyThenTld l ["login", "signin"] ["tk", "ml", "ga", "cf", "gq"], 10,
      "Fake login page pattern"),
     (regexQuadThenKey l ["login", "account", "verify"], 15,
      "IP-based phishing page"),
     (regexKeyThenTld l ["paypal", "amazon", "microsoft", "apple", "google"]
        ["tk", "ml", "ga", "xyz"], 12,
      "Brand impersonation on suspicious TLD"),
     (regexMultiSub ["paypal", "amazon", "microsoft"] l, 8,
      "Suspicious subdomain structure"),
     (regexKeyThenDigits l ["secure", "verify", "update"], 6,
      "Potential data collection page")]
  let hits := (tests.filter fun t => t.1).map fun t =>
    { description := t.2.2, score := t.2.1 : PatternMatch }
  ((hits.map PatternMatch.score).sum, hits)

/-- The result object of `PatternDetector.analyze(url)` (the fields the aggregator
reads: `score`, `confidence`, `classification`, `patterns`; plus the rest of the
object for completeness). -/
structure MLAnalysis where
  score : Nat
  baseScore : Nat := 0
  patternScore : Nat := 0
  classification : String
  confidence : ℚ
  threatLevel : Option String := none
  features : Option FeatureVector := none
  patterns : List PatternMatch := []
  deriving Repr, DecidableEq

/-- JS `analyze(url)`: features → base score → pattern score → classification. -/
def analyze (url : String) : MLAnalysis :=
  match extractFeatures url with
  | none =>
    { score := 0, classification := "error", confidence := 0, features := none }
  | some features =>
    let baseScore := calculatePhishingScore (some features)
    let patternMatch := matchKnownPatterns url
    let totalScore := baseScore + patternMatch.1
    let c := classify totalScore
    { score := totalScore, baseScore := baseScore, patternScore := patternMatch.1,
      classification := c.classification, confidence := c.confidence,
      threatLevel := some c.threatLevel, features := some features,
      patterns := patternMatch.2 }

end PatternDetector

/-! ## `SSLValidator.validateURL` (src/utils/ssl-validator.js)

The mixed-content check (Check 3) is guarded by a `typeof window` test;
`analyzeLink` runs in the background service worker of the extension, where `window`
does not exist, so that branch never fires and is not modelled. -/

/-- The result object of `SSLValidator.validateURL`. -/
structure SSLResult where
  secure : Bool
  issues : List Issue
  protocol : Option String
  isHTTPS : Bool
  isLocalhost : Option Bool := none
  deriving Repr, DecidableEq

namespace SSLValidator

/-- JS `validateURL(url)`. -/
def validateURL (url : String) : SSLResult :=
  match parseURL url with
  | none =>
    { secure := false,
      issues := [{ type := "validation_error", severity := .medium,
                   message := "Unable to validate URL security",
                   errInfo := some "Invalid URL" }],
      protocol := none, isHTTPS := false }
  | some urlObj =>
    let isLocalhost := urlObj.hostname = "localhost" ∨
      urlObj.hostname = "127.0.0.1" ∨ strEndsWith urlObj.hostname ".local"
    -- Check 1 + Check 2 (the localhost branch rewrites the issue just pushed)
    let issues1 : List Issue :=
      if urlObj.protocol = "http:" then
        if isLocalhost then
          [{ type := "insecure_protocol", severity := .low,
             message := "HTTP on localhost (acceptable for development)",
             recommendation := some "Always use HTTPS for sensitive data" }]
        else
          [{ type := "insecure_protocol", severity := .high,
             message := "Insecure HTTP connection (not encrypted)",
             recommendation := some "Always use HTTPS for sensitive data" }]
      else []
    -- Check 4: dangerous ports (`urlObj.port ? parseInt(urlObj.port) : 0`)
    let portNum : Nat :=
      if urlObj.port = "" then 0
      else urlObj.port.toList.foldl (fun n c => n * 10 + (c.toNat - 48)) 0
    let issues2 : List Issue :=
      if [21, 23, 25, 110, 143, 445, 3389].contains portNum then
        [{ type := "dangerous_port", severity := .high,
           message := "Suspicious port " ++ urlObj.port ++
             " (commonly used for attacks)",
           recommendation := some "Avoid clicking links with unusual ports" }]
      else []
    -- Check 5: explicit ssl=false query flag
    let issues3 : List Issue :=
      if searchParamsGet urlObj "ssl" = some "false" then
        [{ type := "ssl_disabled", severity := .high,
           message := "SSL explicitly disabled in URL parameters",
           recommendation := some "Do not proceed with this link" }]
      else []
    let issues := issues1 ++ issues2 ++ issues3
    { secure := (issues.filter fun i => i.severity = .high).length = 0,
      issues := issues,
      protocol := some urlObj.protocol,
      isHTTPS := urlObj.protocol = "https:",
      isLocalhost := some isLocalhost }

end SSLValidator

/-! ## `PhishingDetector` (src/utils/phishing-detector.js) -/

/-- The result of `ThreatIntelligence.checkPhishTank(url)`.
Modelled from the spec: the file `threat-intelligence.js` is not in the sources;
§6 gives the reputation-store lookup contract
`lookup(url) -> {found, verified, timestamp, source}` and §5 says a miss is
`found:false`. -/
structure PhishTankResult where
  found : Bool
  verified : Bool := false
  source : String := ""
  deriving Repr, DecidableEq

/-- The injected collaborators of `analyzeLink`: the clock and every `await`ed
store/notification call, each of which may fail (`Except.error` models a rejected
promise / thrown store error reaching the `try` block). -/
structure Stores where
  /-- JS `Date.now()` (frozen for the duration of one call). -/
  now : Int
  /-- JS `StorageManager.getCachedThreat(url)`. -/
  getCachedThreat : String → Except String (Option AnalysisResult)
  /-- JS `StorageManager.isWhitelisted(domain)`. -/
  isWhitelisted : String → Except String Bool
  /-- JS `StorageManager.removeFromWhitelist(domain)`. -/
  removeFromWhitelist : String → Except String Bool
  /-- JS `StorageManager.isBlacklisted(domain)`. -/
  isBlacklisted : String → Except String Bool
  /-- JS `ThreatIntelligence.checkPhishTank(url)` (see `PhishTankResult`). -/
  checkPhishTank : String → Except String PhishTankResult
  /-- JS `StorageManager.cacheThreat(url, analysis)`. -/
  cacheThreat : String → AnalysisResult → Except String Bool
  /-- JS `StorageManager.incrementScanned()`. -/
  incrementScanned : Except String Unit
  /-- JS `StorageManager.incrementBlocked()`. -/
  incrementBlocked : Except String Unit
  /-- JS `NotificationManager.showThreatBlocked(url, threatLevel, issueCount)`. -/
  showThreatBlocked : String → ThreatLevel → Nat → Except String Unit
  /-- JS `AnalyticsManager.recordThreat(threatLevel, issueTypes)`. -/
  recordThreat : ThreatLevel → List String → Except String Unit

namespace PhishingDetector

/-- JS `analyzeContext(text)`: 1 per phishing keyword contained in the lowercased
text, plus 3 per spam indicator contained (the two `for` loops of the source,
written as filtered counts). -/
def analyzeContext (text : String) : Nat :=
  if text = "" then 0
  else
    let lowerText := strLower text
    let score := (PHISHING_KEYWORDS.filter fun keyword =>
      strIncludes lowerText keyword).length
    let spamScore := 3 * (SPAM_INDICATORS.filter fun spamWord =>
      strIncludes lowerText spamWord).length
    score + spamScore

/-- JS `calculateFinalThreatLevel(analysis)`: reads `issues`, `isLegitimate` and
`contextScore` off the analysis object (absent fields are JS-falsy, hence the
`getD` defaults). -/
def calculateFinalThreatLevel (analysis : AnalysisResult) : ThreatLevel :=
  let issues := analysis.issues
  let isLegitimate := analysis.isLegitimate.getD false
  let contextScore := analysis.contextScore.getD 0
  if isLegitimate then .safe
  else
    let highCount := (issues.filter fun i => i.severity = .high).length
    let mediumCount := (issues.filter fun i => i.severity = .medium).length
    let lowCount := (issues.filter fun i => i.severity = .low).length
    let score := highCount * 3 + mediumCount * 2 + lowCount
    let score := if contextScore ≠ 0 then score + contextScore else score
    if contextScore ≥ 9 then .dangerous
    else if contextScore ≥ 5 then .suspicious
    else if score ≥ 5 ∨ highCount ≥ 2 then .dangerous
    else if score ≥ 2 ∨ highCount ≥ 1 ∨ mediumCount ≥ 2 then .suspicious
    else if issues.length > 0 then .suspicious
    else .unknown

/-- JS `isCacheValid(cached)`: a missing or zero (JS-falsy) timestamp is invalid;
dangerous entries expire after 1 hour, everything else after 24 hours. -/
def isCacheValid (now : Int) (cached : AnalysisResult) : Bool :=
  match cached.timestamp with
  | none => false
  | some ts =>
    if ts = 0 then false
    else
      let age := now - ts
      if cached.threatLevel = .dangerous then age < 3600000
      else age < 86400000

/-- JS `verifyWhitelistedDomain(domain)`: analyze `https://domain` and demand no
high-severity issue; any thrown error fails secure (`false`). -/
def verifyWhitelistedDomain (domain : String) : Bool :=
  match analyzeURLE ("https://" ++ domain) with
  | .error _ => false
  | .ok analysis => (analysis.issues.filter fun i => i.severity = .high).length = 0

/-- The `ml_pattern` / `ml_high_risk` issues appended from an ML analysis.  (The
numeric interpolations of the source messages — the per-pattern description and the
confidence percentage — are carried in the `message`/`mlScore` fields; the
`toFixed(0)` percent formatting is elided from the message text.) -/
def mlIssues (mlAnalysis : PatternDetector.MLAnalysis) : List Issue :=
  (mlAnalysis.patterns.map fun pattern =>
    { type := "ml_pattern",
      severity := if pattern.score > 10 then Severity.high else Severity.medium,
      message := "ML detected: " ++ pattern.description,
      mlScore := some pattern.score }) ++
  (if mlAnalysis.score ≥ 15 then
    [{ type := "ml_high_risk", severity := .high,
       message := "ML detected high-risk patterns",
       mlScore := some mlAnalysis.score }]
   else [])

/-- Lines 108–207 of `analyzeLink`: the local analysis performed once the cache,
whitelist, blacklist and PhishTank short-circuits have all fallen through. -/
def localAnalysis (env : Stores) (url : String) (context : Option String) :
    Except String AnalysisResult := do
  -- const analysis = analyzeURL(url)
  let analysis ← analyzeURLE url
  -- ML pattern detection
  let mlAnalysis := PatternDetector.analyze url
  let analysis :=
    if mlAnalysis.score > 0 then
      { analysis with
        mlScore := some mlAnalysis.score,
        mlConfidence := some mlAnalysis.confidence,
        mlClassification := some mlAnalysis.classification,
        issues := analysis.issues ++ mlIssues mlAnalysis }
    else analysis
  -- SSL/TLS validation
  let sslValidation := SSLValidator.validateURL url
  let analysis := { analysis with issues := analysis.issues ++ sslValidation.issues }
  -- email/context scoring (`context || url`)
  let contextScore := analyzeContext (match context with
    | some c => if c = "" then url else c
    | none => url)
  let analysis :=
    if contextScore > 0 then
      let severity := if contextScore ≥ 9 then Severity.high
        else if contextScore ≥ 5 then Severity.high
        else if contextScore ≥ 3 then Severity.medium
        else Severity.low
      let message := if contextScore ≥ 9 then
          "SPAM: Multiple spam indicators detected in email"
        else if contextScore ≥ 5 then
          "Link appears in highly suspicious context with spam indicators"
        else if contextScore ≥ 3 then "Link appears in suspicious phishing context"
        else "Link appears in suspicious context"
      { analysis with
        issues := analysis.issues ++ [URLParser.mkIssue "suspicious_context" severity message] }
    else analysis
  let analysis := { analysis with contextScore := some contextScore }
  -- final verdict
  let analysis := { analysis with threatLevel := calculateFinalThreatLevel analysis }
  -- cache, statistics, notifications, analytics
  let _ ← env.cacheThreat url analysis
  let _ ← env.incrementScanned
  let _ ← (if analysis.threatLevel = ThreatLevel.dangerous then do
      let _ ← env.incrementBlocked
      env.showThreatBlocked url analysis.threatLevel analysis.issues.length
    else if analysis.threatLevel = ThreatLevel.suspicious ∧ contextScore ≥ 5 then
      env.showThreatBlocked url analysis.threatLevel analysis.issues.length
    else pure ())
  let _ ← env.recordThreat analysis.threatLevel (analysis.issues.map Issue.type)
  pure analysis

/-- Lines 68–107 of `analyzeLink`: blacklist and PhishTank short-circuits, then
`localAnalysis`. -/
def afterWhitelist (env : Stores) (url : String) (context : Option String)
    (domain : String) : Except String AnalysisResult := do
  let bl ← env.isBlacklisted domain
  if bl then
    let result : AnalysisResult :=
      { url := url, domain := some domain, threatLevel := .dangerous,
        issues := [URLParser.mkIssue "blacklisted" .high "Domain is in your blacklist"],
        isBlacklisted := some true, timestamp := some env.now }
    let _ ← env.cacheThreat url result
    let _ ← env.incrementBlocked
    pure result
  else do
    let phishTankResult ← env.checkPhishTank url
    if phishTankResult.found then
      let result : AnalysisResult :=
        { url := url, domain := some domain, threatLevel := .dangerous,
          issues := [URLParser.mkIssue "phishtank_match" .high
            ("Known phishing site (verified by " ++ phishTankResult.source ++
              (if phishTankResult.verified then " - VERIFIED" else "") ++ ")")],
          isPhishTankMatch := some true,
          phishTankVerified := some phishTankResult.verified,
          timestamp := some env.now }
      let _ ← env.cacheThreat url result
      let _ ← env.incrementBlocked
      let _ ← env.showThreatBlocked url result.threatLevel 1
      pure result
    else localAnalysis env url context

/-- Lines 40–67 of `analyzeLink`: `new URL(url)` (which throws on malformed input),
then the whitelist short-circuit with re-verification. -/
def afterCache (env : Stores) (url : String) (context : Option String) :
    Except String AnalysisResult := do
  let urlObj ← (match parseURL url with
    | none => Except.error "Invalid URL"
    | some r => Except.ok r)
  let domain := urlObj.hostname
  let wl ← env.isWhitelisted domain
  if wl then
    let isStillSafe := verifyWhitelistedDomain domain
    if ¬ isStillSafe then do
      let _ ← env.removeFromWhitelist domain
      afterWhitelist env url context domain
    else do
      let result : AnalysisResult :=
        { url := url, domain := some domain, threatLevel := .safe, issues := [],
          isWhitelisted := some true, timestamp := some env.now,
          verified := some true }
      let _ ← env.cacheThreat url result
      pure result
  else afterWhitelist env url context domain

/-- The body of the `try` block of `analyzeLink` (lines 18–207): cache lookup with
age-based re-verification of dangerous/suspicious entries, then `afterCache`. -/
def analyzeLinkCore (env : Stores) (url : String) (context : Option String) :
    Except String AnalysisResult := do
  let cached ← env.getCachedThreat url
  match cached with
  | some c =>
    if isCacheValid env.now c then
      if c.threatLevel = ThreatLevel.dangerous ∨
          c.threatLevel = ThreatLevel.suspicious then
        let cacheAge := env.now - c.timestamp.getD 0
        let maxAge : Int :=
          if c.threatLevel = ThreatLevel.dangerous then 3600000 else 21600000
        if cacheAge > maxAge then afterCache env url context
        else pure c
      else pure c
    else afterCache env url context
  | none => afterCache env url context

/-- JS `analyzeLink(url, context)`: the `try`/`catch` wrapper — any error thrown
anywhere in the analysis is converted into the structured unknown-verdict result. -/
def analyzeLink (env : Stores) (url : String) (context : Option String) :
    AnalysisResult :=
  match analyzeLinkCore env url context with
  | .ok r => r
  | .error e =>
    { url := url, threatLevel := .unknown,
      issues := [URLParser.mkIssue "error" .low "Analysis failed"],
      errMsg := some e }

/-- JS `analyzeLinks(urls)`: the batch loop. -/
def analyzeLinks (env : Stores) (urls : List String) : List AnalysisResult :=
  urls.map fun url => analyzeLink env url none

end PhishingDetector

/-- A store environment with empty cache, whitelist, blacklist and reputation
database, in which every store operation succeeds — the "empty stores" premise of
the testable properties of the spec — at clock value `t`. -/
def pureEnvAt (t : Int) : Stores :=
  { now := t,
    getCachedThreat := fun _ => .ok none,
    isWhitelisted := fun _ => .ok false,
    removeFromWhitelist := fun _ => .ok true,
    isBlacklisted := fun _ => .ok false,
    checkPhishTank := fun _ => .ok { found := false },
    cacheThreat := fun _ _ => .ok true,
    incrementScanned := .ok (),
    incrementBlocked := .ok (),
    showThreatBlocked := fun _ _ _ => .ok (),
    recordThreat := fun _ _ => .ok () }

/-- The empty-store environment at clock 0. -/
def pureEnv : Stores := pureEnvAt 0

/-! ## Specification-side definitions (for the refinement claims)

These two definitions follow the wording of the specification, to be compared with
the source-derived definitions above. -/

/-- Modelled from the spec (§4.1 / C1): the threat table — safe when legitimate;
else dangerous when H≥2 or (H≥1 and M≥1); else suspicious when H≥1 or M≥2; else
suspicious when any issue exists; else unknown. -/
def specThreatTable (legit : Bool) (issues : List Issue) : ThreatLevel :=
  let h := (issues.filter fun i => i.severity = .high).length
  let m := (issues.filter fun i => i.severity = .medium).length
  if legit then .safe
  else if h ≥ 2 ∨ (h ≥ 1 ∧ m ≥ 1) then .dangerous
  else if h ≥ 1 ∨ m ≥ 2 then .suspicious
  else if issues.length > 0 then .suspicious
  else .unknown

/-- Modelled from the spec (§4.2 / C8): the listed fixed weights of the heuristic
phishing score, as one sum. -/
def specWeightSum (f : PatternDetector.FeatureVector) : Nat :=
  (if f.urlLength > 75 then 2 else 0) +
  (if f.urlLength > 100 then 3 else 0) +
  (if f.domainLength > 30 then 2 else 0) +
  (if f.digitCount > 8 then 2 else 0) +
  (if f.specialCharCount > 10 then 2 else 0) +
  (if 2 * f.uppercaseCount > f.domainLength then 1 else 0) +
  (if f.subdomainCount > 3 then 3 else 0) +
  (if f.hasDash then 1 else 0) +
  (if f.hasUnderscore then 2 else 0) +
  (if f.hasIP then 5 else 0) +
  (if f.hasPort then 2 else 0) +
  (if f.hasAtSymbol then 4 else 0) +
  (if ¬ f.isHTTPS then 3 else 0) +
  (if ¬ f.isCommonTLD then 2 else 0) +
  (if ["tk", "ml", "ga", "cf", "gq", "top", "xyz"].contains f.tld then 3 else 0) +
  (if entGt f.entropy 9 2 then 2 else 0) +
  (if entGt f.entropy 5 1 then 3 else 0) +
  f.suspiciousKeywords * 2

/-! ## Claims -/

/-- C1: for every URL string that parses successfully, `URLParser.getThreatLevel`
is computed exactly by the table of the spec (safe when legitimate; else dangerous when
H≥2 or (H≥1 and M≥1); else suspicious when H≥1 or M≥2; else suspicious when any
issue exists; else unknown) over its own issue list. -/
theorem urlParser_threatLevel_matches_table (url : String) (r : URLRec)
    (_h : parseURL url = some r) :
    URLParser.getThreatLevel url r =
      specThreatTable (URLParser.isLegitimate r) (URLParser.getIssues url (some r)) :=
  rfl

/-- Witness for C1: `https://google.com` parses, and the table equation holds
there. -/
theorem urlParser_threatLevel_matches_table_witness :
    parseURL "https://google.com" =
      some { protocol := "https:", username := "", hostname := "google.com",
             port := "", pathname := "/", search := "" } ∧
    URLParser.getThreatLevel "https://google.com"
        { protocol := "https:", username := "", hostname := "google.com",
          port := "", pathname := "/", search := "" } =
      specThreatTable
        (URLParser.isLegitimate
          { protocol := "https:", username := "", hostname := "google.com",
            port := "", pathname := "/", search := "" })
        (URLParser.getIssues "https://google.com"
          (some { protocol := "https:", username := "", hostname := "google.com",
                  port := "", pathname := "/", search := "" })) :=
  ⟨rfl, urlParser_threatLevel_matches_table "https://google.com" _ rfl⟩

/-- C2 (code bug, evaluated at the failing input): `analyzeLink` on `https://google.com`
with empty stores does return `threatLevel = safe` (the legitimate-domain
short-circuit), but its issue list is NOT empty as the claim and the unit tests
of the repository demand: the homograph detector fires because the confusable table
lists plain ASCII `l` as a lookalike, and the typosquatting detector fires because
`google.com` is at Levenshtein distance 1 from the `.co` variant `google.co`. -/
theorem analyzeLink_google_safe_but_issues_not_empty :
    (PhishingDetector.analyzeLink pureEnv "https://google.com" none).threatLevel =
      ThreatLevel.safe ∧
    (PhishingDetector.analyzeLink pureEnv "https://google.com" none).issues.map
        (fun i => (i.type, i.severity)) =
      [("homograph", Severity.high), ("typosquatting", Severity.high)] :=
  ⟨rfl, rfl⟩

/-- C3 counterexample: an analysis input with context score 10 (≥ 9) but a
legitimate domain gets verdict `safe`, not `dangerous` — the `isLegitimate`
short-circuit precedes the context-score override in
`calculateFinalThreatLevel`. -/
theorem contextOverride_counterexample :
    PhishingDetector.calculateFinalThreatLevel
        { url := "https://google.com", threatLevel := ThreatLevel.unknown,
          issues := [], isLegitimate := some true, contextScore := some 10 } =
      ThreatLevel.safe ∧
    ThreatLevel.safe ≠ ThreatLevel.dangerous :=
  ⟨rfl, by decide⟩

/-- C3 as amended: for every analysis input that is NOT marked legitimate, a
context score of at least 9 forces the `dangerous` verdict, independent of the
number or severities of structural issues. -/
theorem contextOverride_amended (analysis : AnalysisResult)
    (hleg : analysis.isLegitimate.getD false = false)
    (hctx : 9 ≤ analysis.contextScore.getD 0) :
    PhishingDetector.calculateFinalThreatLevel analysis = ThreatLevel.dangerous := by
  unfold PhishingDetector.calculateFinalThreatLevel
  rw [hleg]
  simp only [Bool.false_eq_true, if_false]
  rw [if_pos hctx]

/-- Witness for the amended C3: context score 10 with zero structural issues and a
non-legitimate domain is forced to `dangerous`. -/
theorem contextOverride_amended_witness :
    ((({ url := "u", threatLevel := ThreatLevel.unknown, issues := [],
           contextScore := some 10 } : AnalysisResult)).isLegitimate.getD false =
        false ∧
      9 ≤ (({ url := "u", threatLevel := ThreatLevel.unknown, issues := [],
              contextScore := some 10 } : AnalysisResult)).contextScore.getD 0) ∧
    PhishingDetector.calculateFinalThreatLevel
        { url := "u", threatLevel := ThreatLevel.unknown, issues := [],
          contextScore := some 10 } =
      ThreatLevel.dangerous :=
  ⟨⟨rfl, by decide⟩, contextOverride_amended _ rfl (by decide)⟩

/-- C4 (code bug, evaluated at the failing input): for `https://gooogle.com` the
typosquatting detector returns `false` — the misspelling breaks the literal
literal `google`-substring gate (`hostname.includes`) that guards the whole check — and the full
analysis yields `suspicious` (from the homograph issue alone), not `dangerous`;
the unit tests and README of the repository assert `true` and `dangerous`. -/
theorem typosquatting_gooogle_eval :
    parseURL "https://gooogle.com" =
      some { protocol := "https:", username := "", hostname := "gooogle.com",
             port := "", pathname := "/", search := "" } ∧
    URLParser.isTyposquatting
        { protocol := "https:", username := "", hostname := "gooogle.com",
          port := "", pathname := "/", search := "" } = false ∧
    (PhishingDetector.analyzeLink pureEnv "https://gooogle.com" none).threatLevel =
      ThreatLevel.suspicious :=
  ⟨rfl, rfl, rfl⟩

/-- C5 counterexample: for the malformed input `not-a-url`, `analyzeLink` returns
the `unknown` verdict with exactly one issue — but that issue is
`{type: error, severity: low}`, not the claimed `{type: invalid_url, severity:
high}`: the `new URL(url)` call inside `analyzeLink` throws before `analyzeURL`
(and hence `getIssues`) is ever reached, and the catch block builds its own
issue. -/
theorem invalidURL_counterexample :
    (PhishingDetector.analyzeLink pureEnv "not-a-url" none).threatLevel =
      ThreatLevel.unknown ∧
    (PhishingDetector.analyzeLink pureEnv "not-a-url" none).issues =
      [URLParser.mkIssue "error" Severity.low "Analysis failed"] ∧
    ("error" : String) ≠ "invalid_url" ∧ Severity.low ≠ Severity.high :=
  ⟨rfl, rfl, by decide, by decide⟩

/-- C5 as amended: for every malformed URL string (one the URL parser rejects) and
empty stores, `analyzeLink` catches the parse error and returns the `unknown`
verdict with exactly one issue, of type `error` with low severity — no exception
escapes; `URLParser.getIssues` alone does produce the single
`{invalid_url, high}` issue, but the aggregate result never surfaces it. -/
theorem invalidURL_amended (t : Int) (url : String) (context : Option String)
    (h : parseURL url = none) :
    PhishingDetector.analyzeLink (pureEnvAt t) url context =
      { url := url, threatLevel := ThreatLevel.unknown,
        issues := [URLParser.mkIssue "error" Severity.low "Analysis failed"],
        errMsg := some "Invalid URL" } ∧
    URLParser.getIssues url none =
      [URLParser.mkIssue "invalid_url" Severity.high "Invalid URL format"] := by
  refine ⟨?_, rfl⟩
  unfold PhishingDetector.analyzeLink PhishingDetector.analyzeLinkCore
    PhishingDetector.afterCache
  rw [h]
  rfl

/-- Witness for the amended C5: the malformed input `not-a-url` at clock 5. -/
theorem invalidURL_amended_witness :
    parseURL "not-a-url" = none ∧
    (PhishingDetector.analyzeLink (pureEnvAt 5) "not-a-url" none =
        { url := "not-a-url", threatLevel := ThreatLevel.unknown,
          issues := [URLParser.mkIssue "error" Severity.low "Analysis failed"],
          errMsg := some "Invalid URL" } ∧
      URLParser.getIssues "not-a-url" none =
        [URLParser.mkIssue "invalid_url" Severity.high "Invalid URL format"]) :=
  ⟨rfl, invalidURL_amended 5 "not-a-url" none rfl⟩

/-- C6: every error thrown during analysis — whatever the input and whatever the
store behaviour — is caught at the `analyzeLink` boundary and converted into the
structured result `{threatLevel: unknown, issues: [{type: error, severity: low}]}`;
nothing propagates to the caller (`analyzeLink` is total by construction). -/
theorem analyzeLink_catches_all_errors (env : Stores) (url : String)
    (context : Option String) (e : String)
    (h : PhishingDetector.analyzeLinkCore env url context = Except.error e) :
    PhishingDetector.analyzeLink env url context =
      { url := url, threatLevel := ThreatLevel.unknown,
        issues := [URLParser.mkIssue "error" Severity.low "Analysis failed"],
        errMsg := some e } := by
  unfold PhishingDetector.analyzeLink
  rw [h]

/-- Witness for C6: a store whose cache read fails with `Storage error` makes the
analysis core fail, and `analyzeLink` returns the structured error result. -/
theorem analyzeLink_catches_all_errors_witness :
    PhishingDetector.analyzeLinkCore
        { pureEnv with getCachedThreat := fun _ => Except.error "Storage error" }
        "https://example.com" none = Except.error "Storage error" ∧
    PhishingDetector.analyzeLink
        { pureEnv with getCachedThreat := fun _ => Except.error "Storage error" }
        "https://example.com" none =
      { url := "https://example.com", threatLevel := ThreatLevel.unknown,
        issues := [URLParser.mkIssue "error" Severity.low "Analysis failed"],
        errMsg := some "Storage error" } :=
  ⟨rfl, analyzeLink_catches_all_errors _ _ _ _ rfl⟩

/-- The `Except` monad bind on a success, as a rewrite rule. -/
theorem exceptBindOk {ε α β : Type} (a : α) (f : α → Except ε β) :
    (Except.ok a : Except ε α) >>= f = f a := rfl

/-- The `Except` monad `pure`, as a rewrite rule. -/
theorem exceptPure {ε α : Type} (a : α) :
    (pure a : Except ε α) = Except.ok a := rfl

/-- C7: for every cached result with threat level `dangerous` (present in the
cache store with a real timestamp): when its age exceeds 1 hour, `analyzeLink`
does not return it and performs the fresh full analysis (`afterCache`, lines
40–207 of the source); when its age is under 1 hour, `analyzeLink` returns the
cached result verbatim. -/
theorem cacheRefresh_dangerous (env : Stores) (url : String)
    (context : Option String) (c : AnalysisResult) (ts : Int)
    (hget : env.getCachedThreat url = Except.ok (some c))
    (hlvl : c.threatLevel = ThreatLevel.dangerous)
    (hts : c.timestamp = some ts) (hts0 : ts ≠ 0) :
    (env.now - ts > 3600000 →
      PhishingDetector.analyzeLinkCore env url context =
        PhishingDetector.afterCache env url context) ∧
    (env.now - ts < 3600000 →
      PhishingDetector.analyzeLink env url context = c) := by
  constructor
  · intro h
    have hnotlt : ¬ (env.now - ts < 3600000) := by omega
    have hvalid : PhishingDetector.isCacheValid env.now c = false := by
      unfold PhishingDetector.isCacheValid
      rw [hts, hlvl]
      simp [hts0, hnotlt]
    unfold PhishingDetector.analyzeLinkCore
    rw [hget, exceptBindOk]
    simp [hvalid]
  · intro h
    have hng : ¬ (env.now - ts > 3600000) := by omega
    have hvalid : PhishingDetector.isCacheValid env.now c = true := by
      unfold PhishingDetector.isCacheValid
      rw [hts, hlvl]
      simp [hts0, h]
    have hcore : PhishingDetector.analyzeLinkCore env url context = Except.ok c := by
      unfold PhishingDetector.analyzeLinkCore
      rw [hget, exceptBindOk]
      simp [hvalid, hlvl, hts, hng, exceptPure]
    unfold PhishingDetector.analyzeLink
    rw [hcore]

/-- Witness for C7: a dangerous entry cached at time 1000 — stale at clock
5000000 (age 4999000 > 1h, fresh analysis runs), fresh at clock 2000 (age 1000,
returned verbatim). -/
theorem cacheRefresh_dangerous_witness :
    PhishingDetector.analyzeLinkCore
        { pureEnvAt 5000000 with
          getCachedThreat := fun _ => Except.ok (some
            { url := "https://example.com", threatLevel := ThreatLevel.dangerous,
              issues := [], timestamp := some 1000 }) }
        "https://example.com" none =
      PhishingDetector.afterCache
        { pureEnvAt 5000000 with
          getCachedThreat := fun _ => Except.ok (some
            { url := "https://example.com", threatLevel := ThreatLevel.dangerous,
              issues := [], timestamp := some 1000 }) }
        "https://example.com" none ∧
    PhishingDetector.analyzeLink
        { pureEnvAt 2000 with
          getCachedThreat := fun _ => Except.ok (some
            { url := "https://example.com", threatLevel := ThreatLevel.dangerous,
              issues := [], timestamp := some 1000 }) }
        "https://example.com" none =
      { url := "https://example.com", threatLevel := ThreatLevel.dangerous,
        issues := [], timestamp := some 1000 } :=
  ⟨(cacheRefresh_dangerous _ _ _ _ 1000 rfl rfl rfl (by decide)).1 (by decide),
   (cacheRefresh_dangerous _ _ _ _ 1000 rfl rfl rfl (by decide)).2 (by decide)⟩

/-- C8: for every extracted feature vector the heuristic phishing score equals the
sum of exactly the listed fixed weights capped at 100 (hence an integer in
[0, 100]), and feature extraction returns `null` exactly when the URL fails to
parse. -/
theorem phishingScore_weight_table :
    (∀ f : PatternDetector.FeatureVector,
      PatternDetector.calculatePhishingScore (some f) =
        Nat.min (specWeightSum f) 100 ∧
      PatternDetector.calculatePhishingScore (some f) ≤ 100) ∧
    (∀ url : String,
      PatternDetector.extractFeatures url = none ↔ parseURL url = none) := by
  constructor
  · intro f
    constructor
    · unfold PatternDetector.calculatePhishingScore specWeightSum
      simp only [Nat.zero_add]
    · exact Nat.min_le_right _ _
  · intro url
    unfold PatternDetector.extractFeatures
    cases parseURL url <;> simp

/-- Witness for C8: the weight-table equation at a concrete feature vector, and
the extraction/parse equivalence at a concrete unparsable string. -/
theorem phishingScore_weight_table_witness :
    (PatternDetector.calculatePhishingScore (some
        { urlLength := 80, domainLength := 10, pathLength := 1, paramCount := 0,
          digitCount := 0, specialCharCount := 4, uppercaseCount := 0,
          subdomainCount := 0, hasDash := false, hasUnderscore := false,
          hasIP := false, hasPort := false, hasAtSymbol := false, isHTTPS := true,
          tld := "com", isCommonTLD := true, entropy := { len := 2, prodCC := 1 },
          suspiciousKeywords := 0 }) =
      Nat.min (specWeightSum
        { urlLength := 80, domainLength := 10, pathLength := 1, paramCount := 0,
          digitCount := 0, specialCharCount := 4, uppercaseCount := 0,
          subdomainCount := 0, hasDash := false, hasUnderscore := false,
          hasIP := false, hasPort := false, hasAtSymbol := false, isHTTPS := true,
          tld := "com", isCommonTLD := true, entropy := { len := 2, prodCC := 1 },
          suspiciousKeywords := 0 }) 100) ∧
    (PatternDetector.extractFeatures "no scheme here" = none ↔
      parseURL "no scheme here" = none) :=
  ⟨(phishingScore_weight_table.1 _).1, phishingScore_weight_table.2 _⟩

/-- C9: with empty stores, `analyzeLink` is deterministic — two runs on the same
URL and context, even at different clock values, produce identical
`AnalysisResult` values (every field, including the absent timestamp). -/
theorem analyzeLink_deterministic (t₁ t₂ : Int) (url : String)
    (context : Option String) :
    PhishingDetector.analyzeLink (pureEnvAt t₁) url context =
      PhishingDetector.analyzeLink (pureEnvAt t₂) url context := rfl

/-- C10: when `analyzeLink` is called with no (or an empty) context argument, the
raw URL string itself is scored as the context, so the `contextScore` field
equals `analyzeContext url` (1 per phishing keyword substring, 3 per spam
indicator substring, case-insensitive); and URL substrings alone can add a
`suspicious_context` issue and force the verdict — concretely,
`https://evil.com/viagra-bitcoin-pharmacy` (three spam indicators in the URL,
context score 9) is forced to `dangerous`. -/
theorem context_defaults_to_url :
    (∀ (url : String) (r : URLRec) (context : Option String),
      parseURL url = some r → (context = none ∨ context = some "") →
      (PhishingDetector.analyzeLink pureEnv url context).contextScore =
        some (PhishingDetector.analyzeContext url)) ∧
    ((PhishingDetector.analyzeLink pureEnv
        "https://evil.com/viagra-bitcoin-pharmacy" none).contextScore = some 9 ∧
      (PhishingDetector.analyzeLink pureEnv
        "https://evil.com/viagra-bitcoin-pharmacy" none).issues.map
          (fun i => (i.type, i.severity)) =
        [("homograph", Severity.high), ("suspicious_context", Severity.high)] ∧
      (PhishingDetector.analyzeLink pureEnv
        "https://evil.com/viagra-bitcoin-pharmacy" none).threatLevel =
        ThreatLevel.dangerous) := by
  constructor
  · intro url r context hp hctx
    rcases hctx with h | h <;> subst h <;>
      simp [PhishingDetector.analyzeLink, PhishingDetector.analyzeLinkCore,
        PhishingDetector.afterCache, PhishingDetector.afterWhitelist,
        PhishingDetector.localAnalysis, analyzeURLE, pureEnv, pureEnvAt, hp,
        exceptBindOk, exceptPure, ite_self]
  · exact ⟨rfl, rfl, rfl⟩

/-- Witness for C10: the contextScore equation at a concrete parsed URL with no
context argument. -/
theorem context_defaults_to_url_witness :
    parseURL "https://example.org" =
      some { protocol := "https:", username := "", hostname := "example.org",
             port := "", pathname := "/", search := "" } ∧
    (PhishingDetector.analyzeLink pureEnv "https://example.org" none).contextScore =
      some (PhishingDetector.analyzeContext "https://example.org") :=
  ⟨rfl, context_defaults_to_url.1 "https://example.org"
    { protocol := "https:", username := "", hostname := "example.org",
      port := "", pathname := "/", search := "" } none rfl (Or.inl rfl)⟩
